import Mathlib

/-!
# Verification of the mucaster Cast Session subsystem

A shallow embedding of the cast subsystem of the mucaster repository
(`src/cast/mod.rs`, `src/cast/error.rs`, `src/api/mod.rs`) together with
proofs about its discovery, session lifecycle, command dispatch and
serialization behaviour.

Rust machine values are modelled as follows: `f32` values as opaque bit
patterns (`F32`), strings as `String`, vectors as `List`, `Result<T, E>` as
`Except E T`, and a panic (`unwrap` on a failing value, or the `panic!`
macro) as the `none` case of an `Option` wrapped around the function's
result.  Device and network I/O is modelled by passing the outcome of each
I/O step explicitly as data (an environment/oracle argument), so every
definition is executable.
-/

namespace Mucaster

/-- An `f32` value, modelled as an opaque bit pattern: no claim depends on
float arithmetic, only on which values are present. -/
structure F32 where
  bits : Nat
deriving DecidableEq

/-- `std::net::IpAddr`: an IPv4 or IPv6 address. -/
inductive IpAddr where
  | v4 : Nat → Nat → Nat → Nat → IpAddr
  | v6 : List Nat → IpAddr
deriving DecidableEq

/-- `IpAddr::to_string()`, used by `Api::select_chromecast` to set the
caster's device address. -/
def IpAddr.toString : IpAddr → String
  | .v4 a b c d =>
      Nat.repr a ++ "." ++ Nat.repr b ++ "." ++ Nat.repr c ++ "." ++ Nat.repr d
  | .v6 parts => String.intercalate ":" (parts.map Nat.repr)

/-! ## MediaStatus and its serialization (src/cast/mod.rs lines 26-65) -/

/-- The `duration` field of `rust_cast`'s `Media` (the only field the
serializer reads). -/
structure MediaM where
  duration : Option F32
deriving DecidableEq

/-- The fields of `rust_cast`'s `StatusEntry` that mucaster reads:
`player_state` is kept as the string produced by its `to_string()`. -/
structure StatusEntryM where
  player_state : String
  current_time : Option F32
  media : Option MediaM
  media_session_id : Int
deriving DecidableEq

/-- `MediaStatus`: playback info for the caster (`Active(StatusEntry)` or
`Inactive`). -/
inductive MediaStatus where
  | Active (entry : StatusEntryM)
  | Inactive
deriving DecidableEq

/-- A serialized JSON field value (string or number). -/
inductive JVal where
  | str (s : String)
  | num (x : F32)
deriving DecidableEq

/-- The `Serialize` impl for `MediaStatus`, as the ordered field list of the
emitted object; `none` models a panic.  Mirrors the source: `Inactive`
emits only `playbackState`; `Active` emits `playbackState`, then — whenever
`entry.media` is `Some` — `videoLength` from `media.duration.unwrap()`
(which panics when `duration` is `None`), then `currentTime` when
`entry.current_time` is `Some`. -/
def serializeMediaStatus : MediaStatus → Option (List (String × JVal))
  | .Inactive => some [("playbackState", .str "Inactive")]
  | .Active entry =>
      match entry.media with
      | some media =>
          match media.duration with
          | some d =>
              some ([("playbackState", .str entry.player_state),
                     ("videoLength", .num d)] ++
                    (match entry.current_time with
                     | some t => [("currentTime", .num t)]
                     | none => []))
          | none => none
      | none =>
          some ([("playbackState", .str entry.player_state)] ++
                (match entry.current_time with
                 | some t => [("currentTime", .num t)]
                 | none => []))

/-! ## Command dispatcher (src/cast/mod.rs lines 289-387)

`Caster::resume/pause/stop/seek` each call `change_media_state`, which opens
its own short-lived connection (`Caster::connect`), queries the receiver and
media status, and issues the control message.  Each device interaction's
outcome is supplied by a `CmdEnv` oracle; the returned trace records the
wire messages the call sent. -/

/-- `CastError` (src/cast/error.rs), shallowly: the variants reachable from
the command dispatcher. -/
inductive CastErrorM where
  | rustCastError
  | casterError (msg : String)
deriving DecidableEq

/-- A running application entry of the receiver status
(`rust_cast` `Application`); only `transport_id` is read. -/
structure AppEntry where
  transport_id : String
deriving DecidableEq

/-- The wire messages a command call can send to the device, in order. -/
inductive WireMsg where
  | connectDest
  | getReceiverStatus
  | connectApp
  | getMediaStatus
  | play
  | pause
  | stopMsg
  | seekMsg
  | disconnect
deriving DecidableEq

/-- `PlayerSignal` (src/cast/mod.rs lines 67-72). -/
inductive PlayerSignal where
  | Play
  | Pause
  | Stop
  | Seek (time : F32)
deriving DecidableEq

/-- The control message sent for a given `PlayerSignal`. -/
def sigMsg : PlayerSignal → WireMsg
  | .Play => .play
  | .Pause => .pause
  | .Stop => .stopMsg
  | .Seek _ => .seekMsg

/-- Outcomes of the device interactions performed by one command call, in
program order.  `media_session_id`s stand in for media status entries. -/
structure CmdEnv where
  connectDevice : Bool
  connectDest : Except Unit Unit
  receiverStatus : Except Unit (List AppEntry)
  connectApp : Except Unit Unit
  mediaStatus : Except Unit (List Int)
  signalSend : Except Unit Unit
  disconnectReply : Except Unit Unit

/-- `Caster::change_media_state` composed with `Caster::connect`
(src/cast/mod.rs lines 320-387).  Returns the trace of wire messages sent
and the call's outcome: `some (.ok ())` / `some (.error e)` for a normal
`Result` return, `none` for a panic (the `panic!` in `connect`, the
`.unwrap()` on the destination connect, on `applications.first()`, and on
the final `disconnect`). -/
def change_media_state (addr : Option String) (env : CmdEnv) (sig : PlayerSignal) :
    List WireMsg × Option (Except CastErrorM Unit) :=
  match addr with
  | none => ([], some (.error (.casterError "No device address set.")))
  | some _ =>
    if env.connectDevice then
      match env.connectDest with
      | .error _ => ([.connectDest], none)
      | .ok _ =>
        match env.receiverStatus with
        | .error _ => ([.connectDest, .getReceiverStatus], some (.error .rustCastError))
        | .ok apps =>
          match apps with
          | [] => ([.connectDest, .getReceiverStatus], none)
          | _app :: _ =>
            match env.connectApp with
            | .error _ =>
                ([.connectDest, .getReceiverStatus, .connectApp],
                 some (.error .rustCastError))
            | .ok _ =>
              match env.mediaStatus with
              | .error _ =>
                  ([.connectDest, .getReceiverStatus, .connectApp, .getMediaStatus],
                   some (.error .rustCastError))
              | .ok entries =>
                match entries with
                | [] =>
                    ([.connectDest, .getReceiverStatus, .connectApp, .getMediaStatus],
                     some (.error (.casterError
                       "Cannot change media state. No active media.")))
                | _sid :: _ =>
                  match env.signalSend with
                  | .error _ =>
                      ([.connectDest, .getReceiverStatus, .connectApp,
                        .getMediaStatus, sigMsg sig],
                       some (.error .rustCastError))
                  | .ok _ =>
                    match env.disconnectReply with
                    | .error _ =>
                        ([.connectDest, .getReceiverStatus, .connectApp,
                          .getMediaStatus, sigMsg sig, .disconnect], none)
                    | .ok _ =>
                        ([.connectDest, .getReceiverStatus, .connectApp,
                          .getMediaStatus, sigMsg sig, .disconnect],
                         some (.ok ()))
    else
      ([], none)

/-- `Caster::resume` — `change_media_state(Play)?; Ok(())` (the rewrap is
the identity on the outcome). -/
def Caster.resume (addr : Option String) (env : CmdEnv) :
    List WireMsg × Option (Except CastErrorM Unit) :=
  change_media_state addr env .Play

/-- `Caster::pause`. -/
def Caster.pause (addr : Option String) (env : CmdEnv) :
    List WireMsg × Option (Except CastErrorM Unit) :=
  change_media_state addr env .Pause

/-- `Caster::stop`. -/
def Caster.stop (addr : Option String) (env : CmdEnv) :
    List WireMsg × Option (Except CastErrorM Unit) :=
  change_media_state addr env .Stop

/-- `Caster::seek`. -/
def Caster.seek (addr : Option String) (env : CmdEnv) (time : F32) :
    List WireMsg × Option (Except CastErrorM Unit) :=
  change_media_state addr env (.Seek time)

/-- Whether a wire message is one of the playback control messages
(play / pause / stop / seek). -/
def isControl : WireMsg → Bool
  | .play => true
  | .pause => true
  | .stopMsg => true
  | .seekMsg => true
  | _ => false

/-! ## Discovery (src/cast/mod.rs lines 390-470, `find_chromecasts`)

The mDNS stream is modelled as a list of items, each either a response
(its DNS records) or a stream error; the `while let Some(Ok(resp))` loop
stops at the first error item.  The per-address HTTP name probe is modelled
by a `NameProbe` outcome per address. -/

/-- An mDNS DNS record (`mdns::RecordKind`): only A/AAAA records carry an
address. -/
inductive RecordKind where
  | A (addr : IpAddr)
  | AAAA (addr : IpAddr)
  | other
deriving DecidableEq

/-- `to_ip_addr` (src/cast/mod.rs lines 464-470). -/
def to_ip_addr : RecordKind → Option IpAddr
  | .A addr => some addr
  | .AAAA addr => some addr
  | .other => none

/-- One iteration of the device-collection loop: take the first A/AAAA
record of the response and push its address unless already present. -/
def ipStep (acc : List IpAddr) (records : List RecordKind) : List IpAddr :=
  match records.findSome? to_ip_addr with
  | some addr => if addr ∈ acc then acc else acc ++ [addr]
  | none => acc

/-- The `while let Some(Ok(resp))` collection loop over the stream items:
stops at the first stream error. -/
def collectIps : List (Except Unit (List RecordKind)) → List IpAddr → List IpAddr
  | [], acc => acc
  | .ok records :: rest, acc => collectIps rest (ipStep acc records)
  | .error _ :: _, acc => acc

/-- `device_ips` as built by `find_chromecasts` from the stream items. -/
def device_ips (items : List (Except Unit (List RecordKind))) : List IpAddr :=
  collectIps items []

/-- The responses actually processed by the loop: the items before the
first stream error. -/
def receivedOk : List (Except Unit (List RecordKind)) → List (List RecordKind)
  | [] => []
  | .ok records :: rest => records :: receivedOk rest
  | .error _ :: _ => []

/-- The addresses announced by a list of responses, in arrival order
(responses without an A/AAAA record contribute nothing). -/
def respAddrs (resps : List (List RecordKind)) : List IpAddr :=
  resps.filterMap (fun records => records.findSome? to_ip_addr)

/-- First-seen deduplication, stated from the spec's words: keep the first
occurrence of each address, in order.  Used as the specification against
which the collection loop is compared. -/
def dedupFirst : List IpAddr → List IpAddr
  | [] => []
  | a :: l => a :: dedupFirst (l.filter (fun b => decide (b ≠ a)))
termination_by l => l.length
decreasing_by
  simp only [List.length_cons]
  exact Nat.lt_succ_of_le (List.length_filter_le _ _)

/-- The body data of the HTTP probe response: `data()` returned nothing, a
hyper error, or bytes (which decode to a UTF-8 string, or fail to). -/
inductive BodyData where
  | noData
  | dataErr
  | dataBytes (utf8 : Option String)
deriving DecidableEq

/-- The outcome of the HTTP GET to a device's description endpoint. -/
inductive NameProbe where
  | connectFail
  | response (ok2xx : Bool) (body : BodyData)
deriving DecidableEq

/-- Split a character list at the first occurrence of `pat`, returning the
text before it and the text after it, or `none` when `pat` does not
occur. -/
def splitFirst (pat : List Char) : List Char → Option (List Char × List Char)
  | [] => if List.isPrefixOf pat [] then some ([], []) else none
  | c :: rest =>
      if List.isPrefixOf pat (c :: rest) then
        some ([], (c :: rest).drop pat.length)
      else
        match splitFirst pat rest with
        | some (before, after) => some (c :: before, after)
        | none => none

/-- The capture of the regex `<friendlyName>(.*)</friendlyName>` on the
body: the text between the first opening tag and the following closing
tag, when both are present. -/
def captureFriendlyName (body : String) : Option String :=
  match splitFirst "<friendlyName>".toList body.toList with
  | none => none
  | some (_, rest) =>
      match splitFirst "</friendlyName>".toList rest with
      | none => none
      | some (capture, _) => some (String.mk capture)

/-- Resolve one device's name from its probe outcome.  `.ok (some name)`:
the name was extracted; `.ok none`: fall through to the `"Unknown"`
fallback; `.error ()`: the `String::from_utf8(body).unwrap()` panic on a
body that is not valid UTF-8. -/
def resolveEntry : NameProbe → Except Unit (Option String)
  | .connectFail => .ok none
  | .response ok2xx body =>
      if ok2xx then
        match body with
        | .dataBytes (some s) => .ok (captureFriendlyName s)
        | .dataBytes none => .error ()
        | .noData => .ok none
        | .dataErr => .ok none
      else .ok none

/-- The name-resolution loop of `find_chromecasts`: for each collected
address, resolve its name or fall back to `"Unknown"`; a panic aborts the
whole call. -/
def nameChromecasts : List (IpAddr × NameProbe) → Except Unit (List (String × IpAddr))
  | [] => .ok []
  | (ip, probe) :: rest =>
      match resolveEntry probe with
      | .error _ => .error ()
      | .ok found =>
          match nameChromecasts rest with
          | .error _ => .error ()
          | .ok tail =>
              match found with
              | some name => .ok ((name, ip) :: tail)
              | none => .ok (("Unknown", ip) :: tail)

/-! ## Session lifecycle and status thread (src/cast/mod.rs lines 74-228)

`Caster` state plus an explicit account of the spawned status threads and
their shutdown channels.  Each thread record carries the state of its
`mpsc` shutdown channel (`signaled`: a `()` was sent; `dropped`: the
`Sender` was dropped) and its phase.  `begin_cast`'s assignment
`self.shutdown_tx = Some(tx)` drops any previously held `Sender`, and
`close`'s `self.shutdown_tx = None` likewise; the thread polls its channel
with `try_recv` at the top of each loop iteration and exits on a message or
a disconnected channel. -/

/-- Execution phase of a spawned status thread. -/
inductive Phase where
  | looping
  | exited
  | panicked
deriving DecidableEq

/-- A spawned status thread together with its shutdown channel's state. -/
structure ThreadSt where
  id : Nat
  signaled : Bool
  dropped : Bool
  phase : Phase
deriving DecidableEq

/-- The `Caster` struct (src/cast/mod.rs lines 74-78) plus the spawned
threads and a fresh-id counter for their channels. -/
structure CasterSt where
  device_addr : Option String
  shutdown_tx : Option Nat
  status : MediaStatus
  threads : List ThreadSt
  nextId : Nat
deriving DecidableEq

/-- `Caster::new`. -/
def CasterSt.new : CasterSt :=
  { device_addr := none, shutdown_tx := none, status := .Inactive,
    threads := [], nextId := 0 }

/-- `Caster::set_device_addr`. -/
def CasterSt.set_device_addr (s : CasterSt) (addr : String) : CasterSt :=
  { s with device_addr := some addr }

/-- `Caster::is_streaming`: a device address is set and the shared status
is `Active`. -/
def CasterSt.is_streaming (s : CasterSt) : Bool :=
  s.device_addr.isSome &&
    (match s.status with
     | .Inactive => false
     | .Active _ => true)

/-- Outcome of the setup performed on the spawned thread: the device
connect, the app launch and the media load each `.unwrap()`, so a failure
panics the thread. -/
inductive SetupOutcome where
  | ok
  | connectFail
  | launchFail
  | loadFail
deriving DecidableEq

/-- `Caster::begin_cast` (src/cast/mod.rs lines 127-228): fails only when
no device address is selected; otherwise it installs a fresh shutdown
channel (dropping the previous `Sender`, if any), spawns the status thread
(which panics if its connect/launch/load setup fails) and returns
`Ok(())`. -/
def CasterSt.begin_cast (s : CasterSt) (setup : SetupOutcome) :
    CasterSt × Except CastErrorM Unit :=
  match s.device_addr with
  | none => (s, .error (.casterError "No device address selected."))
  | some _ =>
      let dropOld := s.threads.map (fun t =>
        if s.shutdown_tx = some t.id then { t with dropped := true } else t)
      let spawned : ThreadSt :=
        { id := s.nextId, signaled := false, dropped := false,
          phase := match setup with
                   | .ok => .looping
                   | _ => .panicked }
      ({ s with shutdown_tx := some s.nextId,
                threads := dropOld ++ [spawned],
                nextId := s.nextId + 1 },
       .ok ())

/-- `Caster::close` (src/cast/mod.rs lines 114-123): when streaming, first
`self.stop().unwrap()` (panics — result `none` — when the best-effort stop
fails); then, when a `shutdown_tx` is held, send `()` on it and drop it. -/
def CasterSt.close (s : CasterSt) (stopOk : Bool) : CasterSt × Option Unit :=
  if s.is_streaming && !stopOk then
    (s, none)
  else
    match s.shutdown_tx with
    | some id =>
        ({ s with
            threads := s.threads.map (fun t =>
              if t.id = id then { t with signaled := true, dropped := true } else t),
            shutdown_tx := none },
         some ())
    | none => (s, some ())

/-- Environment for one iteration of the status-thread loop: whether the
receive/heartbeat handling panics (the `pong().unwrap()`), and the status
fetch's effect: `none` — the poll interval has not elapsed or the fetch
errored (status unchanged, loop continues); `some none` — fetch returned
no entries (`Inactive`); `some (some e)` — fetch returned entries
(`Active e`). -/
structure LoopEnv where
  recvPanic : Bool
  statusFetch : Option (Option StatusEntryM)

/-- Set the phase of the thread with channel id `tid`. -/
def setPhase (s : CasterSt) (tid : Nat) (p : Phase) : CasterSt :=
  { s with threads := s.threads.map (fun t =>
      if t.id = tid then { t with phase := p } else t) }

/-- One iteration of the status-thread loop for the thread with channel id
`tid` (src/cast/mod.rs lines 178-224): poll the shutdown channel first and
exit on a message or a dropped sender; otherwise handle device traffic
(which can panic the thread) and possibly overwrite the shared status
cell. -/
def threadStep (s : CasterSt) (tid : Nat) (env : LoopEnv) : CasterSt :=
  match s.threads.find? (fun t => t.id = tid) with
  | none => s
  | some t =>
      if t.phase = .looping then
        if t.signaled || t.dropped then
          setPhase s tid .exited
        else if env.recvPanic then
          setPhase s tid .panicked
        else
          match env.statusFetch with
          | none => s
          | some (some entry) => { s with status := .Active entry }
          | some none => { s with status := .Inactive }
      else s

/-- The interleaved operations on a `Caster`: foreground calls
(`set_device_addr` via device selection, `begin_cast`, `close`) and one
loop iteration of any spawned thread. -/
inductive CasterOp : CasterSt → CasterSt → Prop where
  | setAddr (s : CasterSt) (addr : String) :
      CasterOp s (s.set_device_addr addr)
  | begin (s : CasterSt) (setup : SetupOutcome) :
      CasterOp s (s.begin_cast setup).1
  | close (s : CasterSt) (stopOk : Bool) :
      CasterOp s (s.close stopOk).1
  | thread (s : CasterSt) (tid : Nat) (env : LoopEnv) :
      CasterOp s (threadStep s tid env)

/-- States reachable from a freshly constructed `Caster`. -/
inductive ReachableCaster : CasterSt → Prop where
  | init : ReachableCaster CasterSt.new
  | step {s s' : CasterSt} :
      ReachableCaster s → CasterOp s s' → ReachableCaster s'

/-- A poller that is live in the claimed sense: its loop keeps running and
its shutdown channel is neither signaled nor dropped. -/
def isLive (t : ThreadSt) : Prop :=
  t.phase = .looping ∧ t.signaled = false ∧ t.dropped = false

instance (t : ThreadSt) : Decidable (isLive t) := by
  unfold isLive; infer_instance

/-! ## The Api façade (src/api/mod.rs) -/

/-- `ApiError` (src/api/error.rs). -/
inductive ApiErrorM where
  | apiError (msg : String)
  | castError (e : CastErrorM)
deriving DecidableEq

/-- The `Api` state read and written by `select_chromecast`: the current
selection, the cached discovery result, and the caster's device address. -/
structure ApiState where
  current_chromecast : Option (String × IpAddr)
  discovered_chromecasts : List (String × IpAddr)
  caster_device_addr : Option String
deriving DecidableEq

/-- `Api::select_chromecast` (src/api/mod.rs lines 110-122): when the
device pair is in the cached discovery result, record it as current and
set the caster's device address to the address's string form; otherwise
return the not-found error, touching nothing. -/
def Api.select_chromecast (s : ApiState) (device : String × IpAddr) :
    ApiState × Except ApiErrorM Unit :=
  if device ∈ s.discovered_chromecasts then
    ({ s with current_chromecast := some device,
              caster_device_addr := some device.2.toString },
     .ok ())
  else
    (s, .error (.apiError
      "Device not found within discovered_chromecasts,try calling Api::discover_chromecasts() first."))

/-- `CastSignal` (src/api/mod.rs lines 41-49). -/
inductive CastSignal where
  | Begin (index : Nat)
  | Stop
  | Pause
  | Play
  | Seek (time : F32)
deriving DecidableEq

/-- A command issued to the caster by the gateway. -/
inductive CasterCmd where
  | stopCmd
  | pauseCmd
  | resumeCmd
  | seekCmd (time : F32)
deriving DecidableEq

/-- `Api::handle_cast_signal` (src/api/mod.rs lines 172-188): the reply
`"Request recieved."` is sent before anything else; when the caster is not
streaming the signal is dropped (no command, normal return); when
streaming, `Begin` hits `todo!()` (panic, `none`) and the other signals
issue the matching caster command, panicking on `.unwrap()` when the
command fails (`cmdOk = false`).  Returns (replies sent, commands issued,
outcome). -/
def Api.handle_cast_signal (streaming : Bool) (sig : CastSignal) (cmdOk : Bool) :
    List String × List CasterCmd × Option Unit :=
  let replies := ["Request recieved."]
  if streaming then
    match sig with
    | .Begin _ => (replies, [], none)
    | .Stop => (replies, [.stopCmd], if cmdOk then some () else none)
    | .Pause => (replies, [.pauseCmd], if cmdOk then some () else none)
    | .Play => (replies, [.resumeCmd], if cmdOk then some () else none)
    | .Seek t => (replies, [.seekCmd t], if cmdOk then some () else none)
  else
    (replies, [], some ())

/-! ## Theorems about the claims -/

/-- C1: the claim demands that a connect/launch/load failure makes
`begin_cast` return an error with no half-started thread.  Evaluating the
model at the failing input (a selected device whose connection fails)
shows the opposite: `begin_cast` returns `Ok(())`, the spawned thread
panics during setup, and `shutdown_tx` stays set. -/
theorem C1_begin_cast_ok_despite_setup_failure :
    ((CasterSt.new.set_device_addr "10.0.0.5").begin_cast .connectFail).2 = .ok ()
  ∧ ((CasterSt.new.set_device_addr "10.0.0.5").begin_cast .connectFail).1.threads
      = [⟨0, false, false, .panicked⟩]
  ∧ ((CasterSt.new.set_device_addr "10.0.0.5").begin_cast .connectFail).1.shutdown_tx
      = some 0 :=
  ⟨rfl, rfl, rfl⟩

/-- C3: when the media-status query answers with no media entry, each of
`resume`, `pause`, `stop`, `seek` returns the "no active media" error and
its trace contains no play/pause/stop/seek control message. -/
theorem C3_no_active_media_error (addr : String) (env : CmdEnv) (app : AppEntry)
    (apps : List AppEntry)
    (h1 : env.connectDevice = true) (h2 : env.connectDest = .ok ())
    (h3 : env.receiverStatus = .ok (app :: apps)) (h4 : env.connectApp = .ok ())
    (h5 : env.mediaStatus = .ok []) :
    ((Caster.resume (some addr) env).2
        = some (.error (.casterError "Cannot change media state. No active media."))
      ∧ ∀ m ∈ (Caster.resume (some addr) env).1, isControl m = false)
  ∧ ((Caster.pause (some addr) env).2
        = some (.error (.casterError "Cannot change media state. No active media."))
      ∧ ∀ m ∈ (Caster.pause (some addr) env).1, isControl m = false)
  ∧ ((Caster.stop (some addr) env).2
        = some (.error (.casterError "Cannot change media state. No active media."))
      ∧ ∀ m ∈ (Caster.stop (some addr) env).1, isControl m = false)
  ∧ ∀ time : F32, ((Caster.seek (some addr) env time).2
        = some (.error (.casterError "Cannot change media state. No active media."))
      ∧ ∀ m ∈ (Caster.seek (some addr) env time).1, isControl m = false) := by
  have key : ∀ sig : PlayerSignal,
      change_media_state (some addr) env sig
        = ([.connectDest, .getReceiverStatus, .connectApp, .getMediaStatus],
           some (.error (.casterError "Cannot change media state. No active media."))) := by
    intro sig
    simp [change_media_state, h1, h2, h3, h4, h5]
  refine ⟨⟨?_, ?_⟩, ⟨?_, ?_⟩, ⟨?_, ?_⟩, fun time => ⟨?_, ?_⟩⟩ <;>
    simp only [Caster.resume, Caster.pause, Caster.stop, Caster.seek, key] <;>
    decide

/-- C3 witness: the theorem applied at a concrete environment reporting an
empty media-entry list. -/
theorem C3_no_active_media_error_witness :
    (Caster.resume (some "10.0.0.5")
        ⟨true, .ok (), .ok [⟨"transport-1"⟩], .ok (), .ok [], .ok (), .ok ()⟩).2
      = some (.error (.casterError "Cannot change media state. No active media.")) :=
  (C3_no_active_media_error "10.0.0.5"
    ⟨true, .ok (), .ok [⟨"transport-1"⟩], .ok (), .ok [], .ok (), .ok ()⟩
    ⟨"transport-1"⟩ [] rfl rfl rfl rfl rfl).1.1

/-- C4: the claim's `Inactive` and fully-known `Active` cases serialize as
stated, but an `Active` status whose media is present with an unknown
duration panics (`media.duration.unwrap()`) instead of serializing without
`videoLength`. -/
theorem C4_serialization_eval :
    serializeMediaStatus .Inactive = some [("playbackState", .str "Inactive")]
  ∧ serializeMediaStatus (.Active ⟨"PLAYING", some ⟨100⟩, some ⟨some ⟨200⟩⟩, 1⟩)
      = some [("playbackState", .str "PLAYING"), ("videoLength", .num ⟨200⟩),
              ("currentTime", .num ⟨100⟩)]
  ∧ serializeMediaStatus (.Active ⟨"PLAYING", some ⟨100⟩, some ⟨none⟩, 1⟩) = none :=
  ⟨rfl, rfl, rfl⟩

/-- C5: the claim demands that every failure of a command call is returned
as a `CastError` (the call always ends in `Ok` or `Err`).  Evaluating the
model shows two panics instead: a failed device connection hits the
`panic!` in `Caster::connect`, and an empty receiver application list hits
`applications.first().unwrap()`. -/
theorem C5_command_call_panics :
    (change_media_state (some "10.0.0.5")
        ⟨false, .ok (), .ok [⟨"transport-1"⟩], .ok (), .ok [1], .ok (), .ok ()⟩ .Play).2
      = none
  ∧ (change_media_state (some "10.0.0.5")
        ⟨true, .ok (), .ok [], .ok (), .ok [1], .ok (), .ok ()⟩ .Play).2
      = none :=
  ⟨rfl, rfl⟩

/-- C6 counterexample: on the no-active-media path the call returns the
error without ever sending the explicit disconnect, refuting "explicitly
closes the connection on every exit path". -/
theorem C6_counterexample :
    (change_media_state (some "10.0.0.5")
        ⟨true, .ok (), .ok [⟨"transport-9"⟩], .ok (), .ok [], .ok (), .ok ()⟩ .Play).2
      = some (.error (.casterError "Cannot change media state. No active media."))
  ∧ WireMsg.disconnect ∉ (change_media_state (some "10.0.0.5")
        ⟨true, .ok (), .ok [⟨"transport-9"⟩], .ok (), .ok [], .ok (), .ok ()⟩ .Play).1 := by
  exact ⟨rfl, by decide⟩

/-- C9: `select_chromecast` fails with the not-found error leaving the
whole state unchanged when the device pair is not in the cached discovery
result; it succeeds for any cached device, and doing it twice leaves the
same state as doing it once. -/
theorem C9_select_chromecast_spec (s : ApiState) (device : String × IpAddr) :
    (device ∉ s.discovered_chromecasts →
        Api.select_chromecast s device
          = (s, .error (.apiError
              "Device not found within discovered_chromecasts,try calling Api::discover_chromecasts() first.")))
  ∧ (device ∈ s.discovered_chromecasts →
        (Api.select_chromecast s device).2 = .ok ()
      ∧ Api.select_chromecast (Api.select_chromecast s device).1 device
          = ((Api.select_chromecast s device).1, .ok ())) := by
  constructor
  · intro h
    simp [Api.select_chromecast, h]
  · intro h
    refine ⟨by simp [Api.select_chromecast, h], ?_⟩
    simp [Api.select_chromecast, h]

/-- C9 witness: the theorem applied to a one-device discovery result (both
the present and the absent case). -/
theorem C9_select_chromecast_spec_witness :
    (Api.select_chromecast ⟨none, [("LivingRoomTV", IpAddr.v4 10 0 0 5)], none⟩
        ("LivingRoomTV", IpAddr.v4 10 0 0 5)).2 = .ok ()
  ∧ Api.select_chromecast ⟨none, [], none⟩ ("LivingRoomTV", IpAddr.v4 10 0 0 5)
      = (⟨none, [], none⟩, .error (.apiError
          "Device not found within discovered_chromecasts,try calling Api::discover_chromecasts() first.")) :=
  ⟨((C9_select_chromecast_spec ⟨none, [("LivingRoomTV", IpAddr.v4 10 0 0 5)], none⟩
      ("LivingRoomTV", IpAddr.v4 10 0 0 5)).2 (List.mem_singleton.mpr rfl)).1,
   (C9_select_chromecast_spec ⟨none, [], none⟩
      ("LivingRoomTV", IpAddr.v4 10 0 0 5)).1 (List.not_mem_nil _)⟩

/-- C10: `handle_cast_signal` sends `"Request recieved."` first in every
case; when the caster is not streaming the signal is dropped with no
caster command and a normal return, so the caller sees the same reply
whether or not the signal was acted on. -/
theorem C10_reply_then_drop_when_not_streaming :
    ∀ (sig : CastSignal) (cmdOk : Bool),
      Api.handle_cast_signal false sig cmdOk = (["Request recieved."], [], some ())
    ∧ ∀ streaming : Bool,
        (Api.handle_cast_signal streaming sig cmdOk).1 = ["Request recieved."] := by
  intro sig cmdOk
  refine ⟨rfl, ?_⟩
  intro streaming
  cases streaming <;> cases sig <;> rfl

/-- C7: the connect-failure, non-2xx, unread-body and missing-tag probe
outcomes all fall back to `("Unknown", ip)` with the call still returning
the list — but a 2xx response whose body bytes are not valid UTF-8 panics
(`String::from_utf8(..).unwrap()`), aborting the whole discovery call
instead of recording `"Unknown"`. -/
theorem C7_name_resolution_eval :
    nameChromecasts [(IpAddr.v4 10 0 0 5, .connectFail)]
      = .ok [("Unknown", IpAddr.v4 10 0 0 5)]
  ∧ nameChromecasts [(IpAddr.v4 10 0 0 5, .response false .noData)]
      = .ok [("Unknown", IpAddr.v4 10 0 0 5)]
  ∧ nameChromecasts [(IpAddr.v4 10 0 0 5, .response true .dataErr)]
      = .ok [("Unknown", IpAddr.v4 10 0 0 5)]
  ∧ nameChromecasts
        [(IpAddr.v4 10 0 0 5,
          .response true (.dataBytes (some "<friendlyName>LivingRoomTV</friendlyName>")))]
      = .ok [("LivingRoomTV", IpAddr.v4 10 0 0 5)]
  ∧ nameChromecasts [(IpAddr.v4 10 0 0 5, .response true (.dataBytes (some "no tag")))]
      = .ok [("Unknown", IpAddr.v4 10 0 0 5)]
  ∧ nameChromecasts [(IpAddr.v4 10 0 0 5, .response true (.dataBytes none))]
      = .error () :=
  ⟨rfl, rfl, rfl, rfl, rfl, rfl⟩

/-! ### First-seen deduplication of discovered addresses (C8) -/

/-- One address-insertion step of the collection loop. -/
def addrStep (acc : List IpAddr) (addr : IpAddr) : List IpAddr :=
  if addr ∈ acc then acc else acc ++ [addr]

theorem ipStep_eq (acc : List IpAddr) (records : List RecordKind) :
    ipStep acc records
      = match records.findSome? to_ip_addr with
        | some addr => addrStep acc addr
        | none => acc :=
  rfl

theorem collectIps_eq_foldl (items : List (Except Unit (List RecordKind)))
    (acc : List IpAddr) :
    collectIps items acc = (respAddrs (receivedOk items)).foldl addrStep acc := by
  induction items generalizing acc with
  | nil => simp [collectIps, receivedOk, respAddrs]
  | cons item rest ih =>
      cases item with
      | error e => simp [collectIps, receivedOk, respAddrs]
      | ok records =>
          rw [collectIps, receivedOk, ipStep_eq]
          cases h : records.findSome? to_ip_addr with
          | none => simp [respAddrs, List.filterMap_cons, h, ih]
          | some addr => simp [respAddrs, List.filterMap_cons, h, ih]

theorem foldl_addrStep_eq_dedupFirst (l : List IpAddr) (acc : List IpAddr) :
    l.foldl addrStep acc
      = acc ++ dedupFirst (l.filter (fun b => decide (b ∉ acc))) := by
  induction l generalizing acc with
  | nil => simp [dedupFirst]
  | cons a t ih =>
      rw [List.foldl_cons]
      by_cases ha : a ∈ acc
      · rw [show addrStep acc a = acc from if_pos ha, ih, List.filter_cons,
            if_neg (by simp [ha])]
      · rw [show addrStep acc a = acc ++ [a] from if_neg ha, ih, List.filter_cons,
            if_pos (by simp [ha]), dedupFirst]
        have hfilter :
            t.filter (fun b => decide (b ∉ acc ++ [a]))
              = (t.filter (fun b => decide (b ∉ acc))).filter
                  (fun b => decide (b ≠ a)) := by
          rw [List.filter_filter]
          apply List.filter_congr
          intro b _
          by_cases hb : b ∈ acc <;> by_cases hba : b = a <;>
            simp [hb, hba, List.mem_append]
        rw [hfilter, List.append_assoc, List.singleton_append]

theorem mem_of_mem_dedupFirst :
    ∀ (n : Nat) (l : List IpAddr), l.length ≤ n → ∀ x ∈ dedupFirst l, x ∈ l := by
  intro n
  induction n with
  | zero =>
      intro l hl x hx
      have : l = [] := List.length_eq_zero.mp (Nat.le_zero.mp hl)
      subst this
      simp [dedupFirst] at hx
  | succ n ih =>
      intro l hl x hx
      match l with
      | [] => simp [dedupFirst] at hx
      | a :: t =>
          rw [dedupFirst] at hx
          rcases List.mem_cons.mp hx with h | h
          · exact h ▸ List.mem_cons_self a t
          · have hlen : (t.filter (fun b => decide (b ≠ a))).length ≤ n :=
              le_trans (List.filter_sublist t).length_le
                (Nat.succ_le_succ_iff.mp (by simpa using hl))
            exact List.mem_cons_of_mem a
              (List.mem_of_mem_filter (ih _ hlen x h))

theorem dedupFirst_nodup :
    ∀ (n : Nat) (l : List IpAddr), l.length ≤ n → (dedupFirst l).Nodup := by
  intro n
  induction n with
  | zero =>
      intro l hl
      have : l = [] := List.length_eq_zero.mp (Nat.le_zero.mp hl)
      subst this
      simp [dedupFirst]
  | succ n ih =>
      intro l hl
      match l with
      | [] => simp [dedupFirst]
      | a :: t =>
          rw [dedupFirst]
          have hlen : (t.filter (fun b => decide (b ≠ a))).length ≤ n :=
            le_trans (List.filter_sublist t).length_le
              (Nat.succ_le_succ_iff.mp (by simpa using hl))
          refine List.nodup_cons.mpr ⟨?_, ih _ hlen⟩
          intro hmem
          have hmem' := mem_of_mem_dedupFirst _ _ le_rfl a hmem
          have : decide (a ≠ a) = true := (List.mem_filter.mp hmem').2
          simp at this

/-- C8: the address list built by the collection loop contains each
address at most once, and equals the first-seen deduplication of the
addresses announced by the processed responses, in arrival order. -/
theorem C8_device_ips_dedup (items : List (Except Unit (List RecordKind))) :
    (device_ips items).Nodup
  ∧ device_ips items = dedupFirst (respAddrs (receivedOk items)) := by
  have heq : device_ips items = dedupFirst (respAddrs (receivedOk items)) := by
    rw [device_ips, collectIps_eq_foldl, foldl_addrStep_eq_dedupFirst]
    simp
  exact ⟨heq ▸ dedupFirst_nodup _ _ le_rfl, heq⟩

/-- C6 (amended): a command call sends the explicit disconnect exactly on
the path where the control message succeeded (the path returning `Ok`, and
the path whose final `disconnect` unwrap panics); every path returning an
error — the no-active-media path included — returns without issuing a
disconnect. -/
theorem C6_disconnect_only_on_success (addr : Option String) (env : CmdEnv)
    (sig : PlayerSignal) :
    ((change_media_state addr env sig).2 = some (.ok ()) →
        WireMsg.disconnect ∈ (change_media_state addr env sig).1)
  ∧ ∀ e : CastErrorM, (change_media_state addr env sig).2 = some (.error e) →
        WireMsg.disconnect ∉ (change_media_state addr env sig).1 := by
  obtain ⟨cd, cdest, rstat, capp, mstat, ssend, disc⟩ := env
  rcases addr with _ | a
  · simp [change_media_state]
  · rcases cd with _ | _
    · simp [change_media_state]
    · rcases cdest with u | u
      · simp [change_media_state]
      · rcases rstat with u' | (_ | ⟨app, apps⟩)
        · simp [change_media_state]
        · simp [change_media_state]
        · rcases capp with v | v
          · simp [change_media_state]
          · rcases mstat with w | (_ | ⟨sid, sids⟩)
            · simp [change_media_state]
            · simp [change_media_state]
            · rcases ssend with x | x
              · cases sig <;> simp [change_media_state, sigMsg]
              · rcases disc with y | y
                · simp [change_media_state]
                · cases sig <;> simp [change_media_state, sigMsg]

/-- C6 witness for the amended claim: a successful pause sends the
disconnect; a pause failing at the media-status request does not. -/
theorem C6_disconnect_only_on_success_witness :
    WireMsg.disconnect ∈ (change_media_state (some "10.0.0.5")
        ⟨true, .ok (), .ok [⟨"transport-1"⟩], .ok (), .ok [7], .ok (), .ok ()⟩ .Pause).1
  ∧ WireMsg.disconnect ∉ (change_media_state (some "10.0.0.5")
        ⟨true, .ok (), .ok [⟨"transport-1"⟩], .ok (), .error (), .ok (), .ok ()⟩ .Pause).1 :=
  ⟨(C6_disconnect_only_on_success (some "10.0.0.5")
      ⟨true, .ok (), .ok [⟨"transport-1"⟩], .ok (), .ok [7], .ok (), .ok ()⟩ .Pause).1 rfl,
   (C6_disconnect_only_on_success (some "10.0.0.5")
      ⟨true, .ok (), .ok [⟨"transport-1"⟩], .ok (), .error (), .ok (), .ok ()⟩ .Pause).2
     .rustCastError rfl⟩

/-! ### Thread accounting invariant for the session lifecycle (C2) -/

/-- The inductive invariant of the caster's thread accounting: thread ids
are below the fresh-id counter and pairwise distinct, and any thread that
is still looping with a live shutdown channel is the one `shutdown_tx`
points at. -/
def CasterInv (s : CasterSt) : Prop :=
  (∀ t ∈ s.threads, t.id < s.nextId)
  ∧ (s.threads.map ThreadSt.id).Nodup
  ∧ (∀ t ∈ s.threads, isLive t → s.shutdown_tx = some t.id)

theorem map_ids_eq (f : ThreadSt → ThreadSt) (hf : ∀ t, (f t).id = t.id)
    (l : List ThreadSt) : (l.map f).map ThreadSt.id = l.map ThreadSt.id := by
  rw [List.map_map]
  exact List.map_congr_left (fun t _ => hf t)

/-- Mapping an id-preserving, liveness-non-increasing function over the
thread list preserves the invariant (the other fields unchanged). -/
theorem inv_map_threads {s : CasterSt} (hinv : CasterInv s)
    (f : ThreadSt → ThreadSt)
    (hid : ∀ t, (f t).id = t.id)
    (hl : ∀ t, isLive (f t) → isLive t) :
    CasterInv { s with threads := s.threads.map f } := by
  obtain ⟨hlt, hnodup, hlive⟩ := hinv
  refine ⟨?_, ?_, ?_⟩
  · intro t' ht'
    obtain ⟨t, ht, rfl⟩ := List.mem_map.mp ht'
    exact hid t ▸ hlt t ht
  · show ((s.threads.map f).map ThreadSt.id).Nodup
    rw [map_ids_eq f hid]
    exact hnodup
  · intro t' ht' hlive'
    obtain ⟨t, ht, rfl⟩ := List.mem_map.mp ht'
    exact (hid t) ▸ hlive t ht (hl t hlive')

theorem inv_setPhase {s : CasterSt} (hinv : CasterInv s) (tid : Nat)
    (p : Phase) (hp : p ≠ .looping) : CasterInv (setPhase s tid p) := by
  apply inv_map_threads hinv
  · intro t
    by_cases h : t.id = tid <;> simp [h]
  · intro t hlive'
    by_cases h : t.id = tid
    · rw [if_pos h] at hlive'
      exact absurd hlive'.1 hp
    · rwa [if_neg h] at hlive'

/-- The invariant is preserved by every interleaved operation. -/
theorem inv_preserved {s s' : CasterSt} (hinv : CasterInv s)
    (op : CasterOp s s') : CasterInv s' := by
  obtain ⟨hlt, hnodup, hlive⟩ := hinv
  cases op with
  | setAddr addr =>
      exact ⟨hlt, hnodup, hlive⟩
  | begin setup =>
      cases haddr : s.device_addr with
      | none =>
          simp only [CasterSt.begin_cast, haddr]
          exact ⟨hlt, hnodup, hlive⟩
      | some a =>
          simp only [CasterSt.begin_cast, haddr]
          refine ⟨?_, ?_, ?_⟩
          · intro t' ht'
            rcases List.mem_append.mp ht' with h | h
            · obtain ⟨t, ht, rfl⟩ := List.mem_map.mp h
              have hid : (if s.shutdown_tx = some t.id
                  then { t with dropped := true } else t).id = t.id := by
                split <;> rfl
              rw [hid]
              exact Nat.lt_succ_of_lt (hlt t ht)
            · rw [List.mem_singleton.mp h]
              exact Nat.lt_succ_self _
          · show ((s.threads.map _ ++ [_]).map ThreadSt.id).Nodup
            rw [List.map_append, map_ids_eq _ (fun t => by split <;> rfl)]
            refine List.nodup_append.mpr ⟨hnodup, List.nodup_singleton _, ?_⟩
            intro x hx
            obtain ⟨t, ht, rfl⟩ := List.mem_map.mp hx
            simp only [List.map_cons, List.map_nil, List.mem_singleton]
            exact Nat.ne_of_lt (hlt t ht)
          · intro t' ht' hlive'
            rcases List.mem_append.mp ht' with h | h
            · obtain ⟨t, ht, rfl⟩ := List.mem_map.mp h
              by_cases hc : s.shutdown_tx = some t.id
              · rw [if_pos hc] at hlive'
                exact absurd hlive'.2.2 (by simp)
              · rw [if_neg hc] at hlive'
                exact absurd (hlive t ht hlive') hc
            · rw [List.mem_singleton.mp h]
  | close stopOk =>
      by_cases hc : (s.is_streaming && !stopOk) = true
      · simp only [CasterSt.close, hc, if_true]
        exact ⟨hlt, hnodup, hlive⟩
      · cases htx : s.shutdown_tx with
        | none =>
            simp only [CasterSt.close, hc, if_false, htx, Bool.false_eq_true]
            exact ⟨hlt, hnodup, hlive⟩
        | some id =>
            simp only [CasterSt.close, hc, if_false, htx, Bool.false_eq_true]
            refine ⟨?_, ?_, ?_⟩
            · intro t' ht'
              obtain ⟨t, ht, rfl⟩ := List.mem_map.mp ht'
              have hid : (if t.id = id
                  then { t with signaled := true, dropped := true } else t).id
                    = t.id := by
                split <;> rfl
              rw [hid]
              exact hlt t ht
            · show ((s.threads.map _).map ThreadSt.id).Nodup
              rw [map_ids_eq _ (fun t => by split <;> rfl)]
              exact hnodup
            · intro t' ht' hlive'
              obtain ⟨t, ht, rfl⟩ := List.mem_map.mp ht'
              by_cases hi : t.id = id
              · rw [if_pos hi] at hlive'
                exact absurd hlive'.2.1 (by simp)
              · rw [if_neg hi] at hlive'
                have := hlive t ht hlive'
                rw [htx] at this
                exact absurd (Option.some.inj this).symm hi
  | thread tid env =>
      unfold threadStep
      cases hf : s.threads.find? (fun t => t.id = tid) with
      | none => exact ⟨hlt, hnodup, hlive⟩
      | some t =>
          dsimp only
          by_cases hp : t.phase = Phase.looping
          · rw [if_pos hp]
            by_cases hsig : (t.signaled || t.dropped) = true
            · rw [if_pos hsig]
              exact inv_setPhase ⟨hlt, hnodup, hlive⟩ tid .exited (by simp)
            · rw [if_neg hsig]
              by_cases hr : env.recvPanic
              · rw [if_pos hr]
                exact inv_setPhase ⟨hlt, hnodup, hlive⟩ tid .panicked (by simp)
              · rw [if_neg hr]
                cases env.statusFetch with
                | none => exact ⟨hlt, hnodup, hlive⟩
                | some r =>
                    cases r with
                    | none => exact ⟨hlt, hnodup, hlive⟩
                    | some entry => exact ⟨hlt, hnodup, hlive⟩
          · rw [if_neg hp]
            exact ⟨hlt, hnodup, hlive⟩

/-- The invariant holds in every reachable caster state. -/
theorem reachable_inv {s : CasterSt} (h : ReachableCaster s) : CasterInv s := by
  induction h with
  | init =>
      refine ⟨?_, ?_, ?_⟩ <;> simp [CasterSt.new]
  | step hr op ih => exact inv_preserved ih op

theorem find?_eq_of_mem_nodup {l : List ThreadSt}
    (hnodup : (l.map ThreadSt.id).Nodup) {t : ThreadSt} (ht : t ∈ l)
    {tid : Nat} (hid : t.id = tid) :
    l.find? (fun u => u.id = tid) = some t := by
  induction l with
  | nil => cases ht
  | cons h0 rest ih =>
      rw [List.map_cons, List.nodup_cons] at hnodup
      by_cases hh : h0.id = tid
      · have heq : t = h0 := by
          rcases List.mem_cons.mp ht with rfl | hmem
          · rfl
          · have hin : t.id ∈ rest.map ThreadSt.id :=
              List.mem_map_of_mem ThreadSt.id hmem
            rw [hid, ← hh] at hin
            exact absurd hin hnodup.1
        rw [heq, List.find?_cons_of_pos _ (by simp [hh])]
      · have hmem : t ∈ rest := by
          rcases List.mem_cons.mp ht with rfl | hmem
          · exact absurd hid hh
          · exact hmem
        rw [List.find?_cons_of_neg _ (by simp [hh])]
        exact ih hnodup.2 hmem

/-- C2 (amended): in every reachable caster state at most one poller is
live (looping with a shutdown channel neither signaled nor dropped) — a
second `begin_cast` supersedes the previous poller by dropping its channel
`Sender` rather than joining it; after `close` (`shutdown_tx = None`) no
live poller remains, and a superseded or signaled poller exits at its next
cancellation check; `close` returns normally — also when called again
after a previous `close` — whenever the status cell is `Inactive` or the
best-effort stop succeeds. -/
theorem C2_single_live_poller (s : CasterSt) (h : ReachableCaster s) :
    (∀ t1 ∈ s.threads, ∀ t2 ∈ s.threads, isLive t1 → isLive t2 → t1 = t2)
  ∧ (s.shutdown_tx = none → ∀ t ∈ s.threads, ¬ isLive t)
  ∧ (∀ tid : Nat, ∀ env : LoopEnv, ∀ t ∈ s.threads, t.id = tid →
        t.phase = .looping → (t.signaled = true ∨ t.dropped = true) →
        ∀ t' ∈ (threadStep s tid env).threads, t'.id = tid →
          t'.phase = .exited)
  ∧ (∀ stopOk : Bool, s.status = .Inactive ∨ stopOk = true →
        (s.close stopOk).2 = some ()) := by
  obtain ⟨hlt, hnodup, hlive⟩ := reachable_inv h
  refine ⟨?_, ?_, ?_, ?_⟩
  · intro t1 h1 t2 h2 hl1 hl2
    have e1 := hlive t1 h1 hl1
    have e2 := hlive t2 h2 hl2
    have hid : t1.id = t2.id := Option.some.inj (e1 ▸ e2)
    exact List.inj_on_of_nodup_map hnodup h1 h2 hid
  · intro htx t ht hl
    have := hlive t ht hl
    rw [htx] at this
    cases this
  · intro tid env t ht hid hphase hdead t' ht' hid'
    have hfind : s.threads.find? (fun u => u.id = tid) = some t :=
      find?_eq_of_mem_nodup hnodup ht hid
    have hstep : threadStep s tid env = setPhase s tid .exited := by
      unfold threadStep
      rw [hfind]
      dsimp only
      rw [if_pos hphase,
          if_pos (by rcases hdead with hd | hd <;> simp [hd])]
    rw [hstep] at ht'
    unfold setPhase at ht'
    obtain ⟨u, hu, rfl⟩ := List.mem_map.mp ht'
    by_cases hutid : u.id = tid
    · simp [hutid]
    · rw [if_neg hutid] at hid'
      exact absurd hid' hutid
  · intro stopOk hok
    have hcond : (s.is_streaming && !stopOk) = false := by
      rcases hok with hst | hok
      · have hstr : s.is_streaming = false := by
          unfold CasterSt.is_streaming
          rw [hst]
          simp
        simp [hstr]
      · simp [hok]
    unfold CasterSt.close
    simp only [hcond, Bool.false_eq_true, if_false]
    cases htx : s.shutdown_tx <;> rfl

/-- C2 witness for the amended claim: after a `begin_cast` from a fresh
caster, `close` with a succeeding best-effort stop returns normally. -/
theorem C2_single_live_poller_witness :
    (((CasterSt.new.set_device_addr "10.0.0.5").begin_cast .ok).1.close true).2
      = some () :=
  (C2_single_live_poller ((CasterSt.new.set_device_addr "10.0.0.5").begin_cast .ok).1
    (ReachableCaster.step
      (ReachableCaster.step ReachableCaster.init
        (CasterOp.setAddr CasterSt.new "10.0.0.5"))
      (CasterOp.begin (CasterSt.new.set_device_addr "10.0.0.5") .ok))).2.2.2
    true (Or.inr rfl)

/-- C2 counterexample to the claim as stated: right after a second
`begin_cast` two status threads are in the looping phase; right after
`close` the poller is still in the looping phase (it exits only at its
next cancellation check); and a second `close` panics when the status cell
is still `Active` and the best-effort stop fails. -/
theorem C2_counterexample :
    ((((CasterSt.new.set_device_addr "10.0.0.5").begin_cast .ok).1.begin_cast
        .ok).1.threads.map ThreadSt.phase = [.looping, .looping])
  ∧ ((((CasterSt.new.set_device_addr "10.0.0.5").begin_cast .ok).1.close
        true).1.threads.map ThreadSt.phase = [.looping])
  ∧ ((((threadStep ((CasterSt.new.set_device_addr "10.0.0.5").begin_cast .ok).1 0
          ⟨false, some (some ⟨"PLAYING", some ⟨0⟩, none, 1⟩)⟩).close true).1.close
        false).2 = none) :=
  ⟨rfl, rfl, rfl⟩

end Mucaster
